import Mathlib

/-!
Verification of the platform-detection and tool-selection logic of the
Voice-to-Claude CLI (`src/platform_detect.py`).

The module under scrutiny probes environment variables and `PATH` to build an
immutable `PlatformInfo` snapshot, then deterministically selects one clipboard
backend and one keyboard-automation backend, exposing copy / paste / type /
paste-shortcut operations that shell out to the chosen binary with a bounded
timeout, converting every external-process failure into a negative result.

Shallow embedding conventions:
* the process environment is a record of `Option String` fields (a variable is
  absent, or present with a value; Python truthiness of the looked-up value is
  modelled by `truthy`);
* `PATH` resolvability (`shutil.which`) is an arbitrary predicate
  `has : String → Bool`;
* an external process invocation (`subprocess.run`) is a record of the argv,
  the optional standard input, and the timeout in seconds; the outside world is
  an arbitrary oracle `Invocation → ProcResult` deciding whether the call
  succeeds (with some stdout) or fails with one of the three caught exception
  classes (non-zero exit under check=True, timeout, missing binary).  Each
  operation returns its Python result paired with the list of invocations it
  performed, so "invokes no external process" is the trace being empty.
-/

/-- Python's `str.lower()` (ASCII case folding, which covers every string the
probed code compares). -/
def toLowerStr (s : String) : String :=
  String.mk (s.data.map Char.toLower)

/-- Truthiness of a Python `os.environ.get(name)` result: `None` and the empty
string are falsy, every other string is truthy. -/
def truthy : Option String → Bool
  | none => false
  | some s => !s.data.isEmpty

/-- The environment variables read by `platform_detect.py`.  A field is `none`
when the variable is unset. -/
structure Env where
  xdg_session_type : Option String
  wayland_display : Option String
  display : Option String
  xdg_current_desktop : Option String
  desktop_session : Option String
  kde_full_session : Option String
  gnome_desktop_session_id : Option String
deriving DecidableEq, Repr

/-- The environment with no relevant variable set. -/
def Env.empty : Env :=
  { xdg_session_type := none
    wayland_display := none
    display := none
    xdg_current_desktop := none
    desktop_session := none
    kde_full_session := none
    gnome_desktop_session_id := none }

/-- `PlatformInfo._detect_display_server`: `XDG_SESSION_TYPE` lowercased when it
is "wayland" or "x11"; else "wayland" when `WAYLAND_DISPLAY` is truthy; else
"x11" when `DISPLAY` is truthy; else "unknown". -/
def detect_display_server (env : Env) : String :=
  let session_type := toLowerStr (env.xdg_session_type.getD "")
  if session_type = "wayland" ∨ session_type = "x11" then session_type
  else if truthy env.wayland_display then "wayland"
  else if truthy env.display then "x11"
  else "unknown"

/-- `PlatformInfo._detect_desktop_environment`: `XDG_CURRENT_DESKTOP` when
non-empty; else `DESKTOP_SESSION` when non-empty; else "KDE" when
`KDE_FULL_SESSION` is truthy; else "GNOME" when `GNOME_DESKTOP_SESSION_ID` is
truthy; else "unknown". -/
def detect_desktop_environment (env : Env) : String :=
  let desktop := env.xdg_current_desktop.getD ""
  if !desktop.data.isEmpty then desktop
  else
    let session := env.desktop_session.getD ""
    if !session.data.isEmpty then session
    else if truthy env.kde_full_session then "KDE"
    else if truthy env.gnome_desktop_session_id then "GNOME"
    else "unknown"

/-- Boolean test that `pat` occurs as a contiguous run at the head of `l`. -/
def headMatches : List Char → List Char → Bool
  | [], _ => true
  | _ :: _, [] => false
  | a :: as, b :: bs => a == b && headMatches as bs

/-- Boolean test that `pat` occurs as a contiguous run somewhere in `l`. -/
def occursIn (pat : List Char) : List Char → Bool
  | [] => headMatches pat []
  | b :: bs => headMatches pat (b :: bs) || occursIn pat bs

/-- Python's `pat in s` on strings: substring containment. -/
def hasSubstr (s pat : String) : Bool :=
  occursIn pat.data s.data

/-- The `available_tools` dictionary: per-category lists of detected tools. -/
structure Tools where
  clipboard : List String
  keyboard : List String
  notification : List String
deriving DecidableEq, Repr

/-- `PlatformInfo._detect_available_tools`, with `has` standing for
`shutil.which` resolvability of a command name in `PATH`. -/
def detect_available_tools (has : String → Bool) : Tools :=
  let clipboard : List String := []
  let clipboard := if has "wl-copy" && has "wl-paste" then clipboard ++ ["wl-clipboard"] else clipboard
  let clipboard := if has "xclip" then clipboard ++ ["xclip"] else clipboard
  let clipboard := if has "xsel" then clipboard ++ ["xsel"] else clipboard
  let keyboard : List String := []
  let keyboard := if has "ydotool" then keyboard ++ ["ydotool"] else keyboard
  let keyboard := if has "kdotool" then keyboard ++ ["kdotool"] else keyboard
  let keyboard := if has "xdotool" then keyboard ++ ["xdotool"] else keyboard
  let keyboard := if has "wtype" then keyboard ++ ["wtype"] else keyboard
  let notification : List String := []
  let notification := if has "notify-send" then notification ++ ["notify-send"] else notification
  { clipboard := clipboard, keyboard := keyboard, notification := notification }

/-- The `PlatformInfo` snapshot: display server, desktop environment, the
derived booleans, and the detected tools. -/
structure PlatformInfo where
  display_server : String
  desktop_env : String
  is_wayland : Bool
  is_x11 : Bool
  is_kde : Bool
  is_gnome : Bool
  available_tools : Tools
deriving DecidableEq, Repr

/-- `PlatformInfo.__init__`: construct the snapshot from the environment and
`PATH` resolvability. -/
def PlatformInfo.init (env : Env) (has : String → Bool) : PlatformInfo :=
  let display_server := detect_display_server env
  let desktop_env := detect_desktop_environment env
  { display_server := display_server
    desktop_env := desktop_env
    is_wayland := display_server == "wayland"
    is_x11 := display_server == "x11"
    is_kde := hasSubstr (toLowerStr desktop_env) "kde"
    is_gnome := hasSubstr (toLowerStr desktop_env) "gnome"
    available_tools := detect_available_tools has }

/-- `PlatformInfo.get_clipboard_tool`: Wayland with the wl-clipboard pair
present selects wl-clipboard; on X11, xclip is preferred over xsel; otherwise
wl-clipboard when present; else nothing. -/
def PlatformInfo.get_clipboard_tool (p : PlatformInfo) : Option String :=
  if p.is_wayland && p.available_tools.clipboard.contains "wl-clipboard" then
    some "wl-clipboard"
  else if p.is_x11 then
    if p.available_tools.clipboard.contains "xclip" then some "xclip"
    else if p.available_tools.clipboard.contains "xsel" then some "xsel"
    else none
  else if p.available_tools.clipboard.contains "wl-clipboard" then
    some "wl-clipboard"
  else none

/-- `PlatformInfo.get_keyboard_tool`: ydotool whenever present; else kdotool on
KDE; else xdotool on X11; else wtype on Wayland; else nothing. -/
def PlatformInfo.get_keyboard_tool (p : PlatformInfo) : Option String :=
  if p.available_tools.keyboard.contains "ydotool" then some "ydotool"
  else if p.is_kde && p.available_tools.keyboard.contains "kdotool" then some "kdotool"
  else if p.is_x11 && p.available_tools.keyboard.contains "xdotool" then some "xdotool"
  else if p.is_wayland && p.available_tools.keyboard.contains "wtype" then some "wtype"
  else none

example :
    (PlatformInfo.init { Env.empty with xdg_session_type := some "x11" }
      (fun c => c == "xclip" || c == "xsel")).get_clipboard_tool = some "xclip" := by
  decide

example :
    (PlatformInfo.init Env.empty (fun _ => false)).get_keyboard_tool = none := by
  decide

/-- `PlatformInfo.get_clipboard_tool` as a method call in state-passing style:
the Python method only reads `self`, so the snapshot comes back unchanged. -/
def PlatformInfo.get_clipboard_tool_call (p : PlatformInfo) : Option String × PlatformInfo :=
  (p.get_clipboard_tool, p)

/-- `PlatformInfo.get_keyboard_tool` as a method call in state-passing style:
the Python method only reads `self`, so the snapshot comes back unchanged. -/
def PlatformInfo.get_keyboard_tool_call (p : PlatformInfo) : Option String × PlatformInfo :=
  (p.get_keyboard_tool, p)

/-- One `subprocess.run` call: argv, optional text fed to standard input, and
the timeout in seconds. -/
structure Invocation where
  argv : List String
  stdinText : Option String
  timeoutSec : Nat
deriving DecidableEq, Repr

/-- Outcome of an external process call: success with captured stdout, or one
of the three failure classes the code catches (`CalledProcessError` from
check=True on a non-zero exit, `TimeoutExpired`, `FileNotFoundError`). -/
inductive ProcResult where
  | ok (stdout : String)
  | nonZeroExit
  | timedOut
  | missingBinary
deriving DecidableEq, Repr

/-- Whether the process call succeeded. -/
def ProcResult.isOk : ProcResult → Bool
  | .ok _ => true
  | _ => false

/-- The outside world: what each external process call would do. -/
def World : Type := Invocation → ProcResult

/-- `PlatformInfo.copy_to_clipboard`: shell out to the selected clipboard tool
with a 5 second timeout; any caught failure yields `false`.  The returned list
records the external invocations performed. -/
def PlatformInfo.copy_to_clipboard (p : PlatformInfo) (w : World) (text : String) :
    Bool × List Invocation :=
  match p.get_clipboard_tool with
  | none => (false, [])
  | some clipboard_tool =>
    if clipboard_tool = "wl-clipboard" then
      let inv : Invocation := { argv := ["wl-copy", text], stdinText := none, timeoutSec := 5 }
      ((w inv).isOk, [inv])
    else if clipboard_tool = "xclip" then
      let inv : Invocation :=
        { argv := ["xclip", "-selection", "clipboard"], stdinText := some text, timeoutSec := 5 }
      ((w inv).isOk, [inv])
    else if clipboard_tool = "xsel" then
      let inv : Invocation :=
        { argv := ["xsel", "--clipboard", "--input"], stdinText := some text, timeoutSec := 5 }
      ((w inv).isOk, [inv])
    else (false, [])

/-- `PlatformInfo.paste_from_clipboard`: shell out to the selected clipboard
tool with a 5 second timeout, returning its captured stdout; any caught
failure yields `none`. -/
def PlatformInfo.paste_from_clipboard (p : PlatformInfo) (w : World) :
    Option String × List Invocation :=
  match p.get_clipboard_tool with
  | none => (none, [])
  | some clipboard_tool =>
    if clipboard_tool = "wl-clipboard" then
      let inv : Invocation := { argv := ["wl-paste"], stdinText := none, timeoutSec := 5 }
      (match w inv with | .ok out => some out | _ => none, [inv])
    else if clipboard_tool = "xclip" then
      let inv : Invocation :=
        { argv := ["xclip", "-selection", "clipboard", "-o"], stdinText := none, timeoutSec := 5 }
      (match w inv with | .ok out => some out | _ => none, [inv])
    else if clipboard_tool = "xsel" then
      let inv : Invocation :=
        { argv := ["xsel", "--clipboard", "--output"], stdinText := none, timeoutSec := 5 }
      (match w inv with | .ok out => some out | _ => none, [inv])
    else (none, [])

/-- `PlatformInfo.type_text`: shell out to the selected keyboard tool with a
10 second timeout; any caught failure yields `false`. -/
def PlatformInfo.type_text (p : PlatformInfo) (w : World) (text : String) :
    Bool × List Invocation :=
  match p.get_keyboard_tool with
  | none => (false, [])
  | some keyboard_tool =>
    if keyboard_tool = "ydotool" then
      let inv : Invocation := { argv := ["ydotool", "type", text], stdinText := none, timeoutSec := 10 }
      ((w inv).isOk, [inv])
    else if keyboard_tool = "kdotool" then
      let inv : Invocation := { argv := ["kdotool", "type", text], stdinText := none, timeoutSec := 10 }
      ((w inv).isOk, [inv])
    else if keyboard_tool = "xdotool" then
      let inv : Invocation := { argv := ["xdotool", "type", "--", text], stdinText := none, timeoutSec := 10 }
      ((w inv).isOk, [inv])
    else if keyboard_tool = "wtype" then
      let inv : Invocation := { argv := ["wtype", text], stdinText := none, timeoutSec := 10 }
      ((w inv).isOk, [inv])
    else (false, [])

/-- `PlatformInfo.simulate_paste_shortcut`: only a ydotool selection performs
key-code injection (Ctrl+V, or Shift+Ctrl+V when `use_shift`), with a 2 second
timeout; every other selection returns `false` without invoking anything. -/
def PlatformInfo.simulate_paste_shortcut (p : PlatformInfo) (w : World) (use_shift : Bool) :
    Bool × List Invocation :=
  if p.get_keyboard_tool = some "ydotool" then
    let inv : Invocation :=
      if use_shift then
        { argv := ["ydotool", "key", "42:1", "29:1", "47:1", "47:0", "29:0", "42:0"],
          stdinText := none, timeoutSec := 2 }
      else
        { argv := ["ydotool", "key", "29:1", "47:1", "47:0", "29:0"],
          stdinText := none, timeoutSec := 2 }
    ((w inv).isOk, [inv])
  else (false, [])

/-- Python's `str.strip('"')`: drop double quotes from both ends. -/
def stripQuotes (s : String) : String :=
  String.mk (((s.data.dropWhile (fun c => c == '"')).reverse.dropWhile (fun c => c == '"')).reverse)

/-- Python's `str.strip()`: drop whitespace from both ends. -/
def stripWs (s : String) : String :=
  String.mk (((s.data.dropWhile Char.isWhitespace).reverse.dropWhile Char.isWhitespace).reverse)

/-- Split a character list at every occurrence of the separator character. -/
def splitOnChar (sep : Char) : List Char → List (List Char)
  | [] => [[]]
  | c :: cs =>
    let rest := splitOnChar sep cs
    if c == sep then [] :: rest
    else match rest with
      | [] => [[c]]
      | r :: rs => (c :: r) :: rs

/-- Split a string at every occurrence of the separator character, as Python's
`str.split(sep)` for a one-character separator. -/
def splitStr (sep : Char) (s : String) : List String :=
  (splitOnChar sep s.data).map String.mk

/-- The body of `PlatformInfo._detect_distro`: scan the lines of
`/etc/os-release` for the first `ID=` line whose identifier falls in one of the
four known families; return that family, else "unknown". -/
def detect_distro_lines : List String → String
  | [] => "unknown"
  | line :: rest =>
    if headMatches "ID=".data line.data then
      let distro_id := toLowerStr (stripQuotes (stripWs ((splitStr '=' line).getD 1 "")))
      if distro_id = "arch" ∨ distro_id = "manjaro" ∨ distro_id = "cachyos" then "arch"
      else if distro_id = "ubuntu" ∨ distro_id = "debian" ∨ distro_id = "pop" ∨ distro_id = "mint" then "debian"
      else if distro_id = "fedora" ∨ distro_id = "rhel" ∨ distro_id = "centos" then "fedora"
      else if distro_id = "opensuse" ∨ distro_id = "sles" then "opensuse"
      else detect_distro_lines rest
    else detect_distro_lines rest

/-- `PlatformInfo._detect_distro`: `none` stands for `/etc/os-release` being
absent (`FileNotFoundError`), which yields "unknown". -/
def detect_distro : Option String → String
  | none => "unknown"
  | some content => detect_distro_lines (splitStr '\n' content)

/-- The `package_names` table of `PlatformInfo._get_package_cmd`: a nested
dictionary lookup, `none` when the key is absent. -/
def package_names (package distro : String) : Option String :=
  if package = "wl-clipboard" then
    if distro = "arch" then some "wl-clipboard"
    else if distro = "debian" then some "wl-clipboard"
    else if distro = "fedora" then some "wl-clipboard"
    else if distro = "opensuse" then some "wl-clipboard"
    else none
  else if package = "xclip" then
    if distro = "arch" then some "xclip"
    else if distro = "debian" then some "xclip"
    else if distro = "fedora" then some "xclip"
    else if distro = "opensuse" then some "xclip"
    else none
  else if package = "ydotool" then
    if distro = "arch" then some "ydotool"
    else if distro = "debian" then some "ydotool"
    else if distro = "fedora" then some "ydotool"
    else if distro = "opensuse" then some "ydotool"
    else none
  else none

/-- The `package_managers` table of `PlatformInfo._get_package_cmd`. -/
def package_managers (distro : String) : Option String :=
  if distro = "arch" then some "sudo pacman -S"
  else if distro = "debian" then some "sudo apt install"
  else if distro = "fedora" then some "sudo dnf install"
  else if distro = "opensuse" then some "sudo zypper install"
  else none

/-- `PlatformInfo._get_package_cmd`: package manager command plus mapped
package name, with generic fallbacks. -/
def get_package_cmd (distro package : String) : String :=
  let pkg_name := (package_names package distro).getD package
  let pkg_mgr := (package_managers distro).getD "sudo <package-manager> install"
  pkg_mgr ++ " " ++ pkg_name

/-- `PlatformInfo.get_install_instructions`, with the content of
`/etc/os-release` passed explicitly (`none` when the file is absent).  Note the
inner `keyboard_tool == some "ydotool"` test is evaluated under
`keyboard_tool.isNone`, exactly as in the source. -/
def PlatformInfo.get_install_instructions (p : PlatformInfo) (osRelease : Option String) : String :=
  let distro := detect_distro osRelease
  let instructions : List String := []
  let clipboard_tool := p.get_clipboard_tool
  let instructions :=
    if clipboard_tool.isNone then
      if p.is_wayland then
        instructions ++ ["Install clipboard tool: " ++ get_package_cmd distro "wl-clipboard"]
      else
        instructions ++ ["Install clipboard tool: " ++ get_package_cmd distro "xclip"]
    else instructions
  let keyboard_tool := p.get_keyboard_tool
  let instructions :=
    if keyboard_tool.isNone then
      let instructions := instructions ++ ["Install keyboard automation: " ++ get_package_cmd distro "ydotool"]
      if keyboard_tool = some "ydotool" then
        instructions ++ ["Enable ydotool daemon: systemctl --user enable --now ydotool"]
      else instructions
    else instructions
  if instructions.isEmpty then "All required tools are installed!"
  else String.intercalate "\n" instructions

example :
    (PlatformInfo.init Env.empty (fun _ => false)).get_install_instructions none =
      "Install clipboard tool: sudo <package-manager> install xclip\nInstall keyboard automation: sudo <package-manager> install ydotool" := by
  decide

/-- The display-server priority chain below the `XDG_SESSION_TYPE` rule, shared
by the spec reading and the claim reading. -/
def display_fallback (env : Env) : String :=
  if truthy env.wayland_display then "wayland"
  else if truthy env.display then "x11"
  else "unknown"

/-- The claim's reading of display-server classification, taken literally:
`XDG_SESSION_TYPE` is used when it equals "wayland" or "x11" (an exact string
comparison); else a truthy Wayland display variable gives "wayland"; else a
truthy X11 display variable gives "x11"; else "unknown". -/
def claimed_display_server (env : Env) : String :=
  match env.xdg_session_type with
  | some s => if s = "wayland" ∨ s = "x11" then s else display_fallback env
  | none => display_fallback env

/-- The amended spec reading of display-server classification: identical to the
claim except that `XDG_SESSION_TYPE` is compared after lowercasing, and "set"
means set to a non-empty value. -/
def spec_display_server (env : Env) : String :=
  match env.xdg_session_type with
  | some s =>
    if toLowerStr s = "wayland" then "wayland"
    else if toLowerStr s = "x11" then "x11"
    else display_fallback env
  | none => display_fallback env

/-- The claim's reading of clipboard-tool selection, over the availability
facts: Wayland with the pair present gives wl-clipboard; an X11 session with
xclip gives xclip, with xsel gives xsel; otherwise, whenever the wl-clipboard
pair is available at all, wl-clipboard; else nothing. -/
def claimed_clipboard_tool (wl_pair xclip xsel wayland x11 : Bool) : Option String :=
  if wayland && wl_pair then some "wl-clipboard"
  else if x11 && xclip then some "xclip"
  else if x11 && xsel then some "xsel"
  else if wl_pair then some "wl-clipboard"
  else none

/-- The amended spec reading of clipboard-tool selection, over the availability
facts: as the claim, except that an X11 session with neither X11 clipboard tool
selects nothing — the wl-clipboard fallback applies only to non-X11 sessions. -/
def spec_clipboard_tool (wl_pair xclip xsel wayland x11 : Bool) : Option String :=
  if wayland && wl_pair then some "wl-clipboard"
  else if x11 then
    if xclip then some "xclip"
    else if xsel then some "xsel"
    else none
  else if wl_pair then some "wl-clipboard"
  else none

/-- The spec reading of keyboard-tool selection, over the availability facts
and the session predicates: ydotool whenever available; else kdotool on a
detected KDE desktop; else xdotool on X11; else wtype on Wayland; else
nothing. -/
def spec_keyboard_tool (ydotool kdotool xdotool wtype kde x11 wayland : Bool) : Option String :=
  if ydotool then some "ydotool"
  else if kde && kdotool then some "kdotool"
  else if x11 && xdotool then some "xdotool"
  else if wayland && wtype then some "wtype"
  else none

/-- An X11 session environment (for the clipboard counterexample). -/
def envX11 : Env := { Env.empty with xdg_session_type := some "x11" }

/-- An environment whose session type is spelled with a capital letter (for the
display-server counterexample). -/
def envMixedCase : Env := { Env.empty with xdg_session_type := some "Wayland" }

/-- A `PATH` with only the wl-clipboard pair installed. -/
def hasOnlyWl : String → Bool := fun c => c == "wl-copy" || c == "wl-paste"

/-- A `PATH` with only xdotool installed. -/
def hasOnlyXdotool : String → Bool := fun c => c == "xdotool"

/-- A world in which every external process call succeeds with empty output. -/
def happyWorld : World := fun _ => ProcResult.ok ""

lemma clipboard_contains_wl (has : String → Bool) :
    (detect_available_tools has).clipboard.contains "wl-clipboard" =
      (has "wl-copy" && has "wl-paste") := by
  cases hw : has "wl-copy" && has "wl-paste" <;>
    cases hx : has "xclip" <;>
      cases hs : has "xsel" <;>
        simp [detect_available_tools, hw, hx, hs]

lemma clipboard_contains_xclip (has : String → Bool) :
    (detect_available_tools has).clipboard.contains "xclip" = has "xclip" := by
  cases hw : has "wl-copy" && has "wl-paste" <;>
    cases hx : has "xclip" <;>
      cases hs : has "xsel" <;>
        simp [detect_available_tools, hw, hx, hs]

lemma clipboard_contains_xsel (has : String → Bool) :
    (detect_available_tools has).clipboard.contains "xsel" = has "xsel" := by
  cases hw : has "wl-copy" && has "wl-paste" <;>
    cases hx : has "xclip" <;>
      cases hs : has "xsel" <;>
        simp [detect_available_tools, hw, hx, hs]

lemma keyboard_contains_ydotool (has : String → Bool) :
    (detect_available_tools has).keyboard.contains "ydotool" = has "ydotool" := by
  cases h1 : has "ydotool" <;>
    cases h2 : has "kdotool" <;>
      cases h3 : has "xdotool" <;>
        cases h4 : has "wtype" <;>
          simp [detect_available_tools, h1, h2, h3, h4]

lemma keyboard_contains_kdotool (has : String → Bool) :
    (detect_available_tools has).keyboard.contains "kdotool" = has "kdotool" := by
  cases h1 : has "ydotool" <;>
    cases h2 : has "kdotool" <;>
      cases h3 : has "xdotool" <;>
        cases h4 : has "wtype" <;>
          simp [detect_available_tools, h1, h2, h3, h4]

lemma keyboard_contains_xdotool (has : String → Bool) :
    (detect_available_tools has).keyboard.contains "xdotool" = has "xdotool" := by
  cases h1 : has "ydotool" <;>
    cases h2 : has "kdotool" <;>
      cases h3 : has "xdotool" <;>
        cases h4 : has "wtype" <;>
          simp [detect_available_tools, h1, h2, h3, h4]

lemma keyboard_contains_wtype (has : String → Bool) :
    (detect_available_tools has).keyboard.contains "wtype" = has "wtype" := by
  cases h1 : has "ydotool" <;>
    cases h2 : has "kdotool" <;>
      cases h3 : has "xdotool" <;>
        cases h4 : has "wtype" <;>
          simp [detect_available_tools, h1, h2, h3, h4]

lemma init_available_tools (env : Env) (has : String → Bool) :
    (PlatformInfo.init env has).available_tools = detect_available_tools has := rfl

lemma init_is_wayland (env : Env) (has : String → Bool) :
    (PlatformInfo.init env has).is_wayland = (detect_display_server env == "wayland") := rfl

lemma init_is_x11 (env : Env) (has : String → Bool) :
    (PlatformInfo.init env has).is_x11 = (detect_display_server env == "x11") := rfl

lemma detect_distro_lines_mem (ls : List String) :
    detect_distro_lines ls = "arch" ∨ detect_distro_lines ls = "debian" ∨
      detect_distro_lines ls = "fedora" ∨ detect_distro_lines ls = "opensuse" ∨
      detect_distro_lines ls = "unknown" := by
  induction ls with
  | nil => simp [detect_distro_lines]
  | cons line rest ih =>
    simp only [detect_distro_lines]
    by_cases h0 : headMatches "ID=".data line.data = true
    · rw [if_pos h0]
      generalize toLowerStr (stripQuotes (stripWs ((splitStr '=' line).getD 1 ""))) = d
      by_cases h1 : d = "arch" ∨ d = "manjaro" ∨ d = "cachyos"
      · rw [if_pos h1]; exact Or.inl rfl
      · rw [if_neg h1]
        by_cases h2 : d = "ubuntu" ∨ d = "debian" ∨ d = "pop" ∨ d = "mint"
        · rw [if_pos h2]; exact Or.inr (Or.inl rfl)
        · rw [if_neg h2]
          by_cases h3 : d = "fedora" ∨ d = "rhel" ∨ d = "centos"
          · rw [if_pos h3]; exact Or.inr (Or.inr (Or.inl rfl))
          · rw [if_neg h3]
            by_cases h4 : d = "opensuse" ∨ d = "sles"
            · rw [if_pos h4]; exact Or.inr (Or.inr (Or.inr (Or.inl rfl)))
            · rw [if_neg h4]; exact ih
    · rw [if_neg h0]; exact ih

lemma detect_distro_mem (osRelease : Option String) :
    detect_distro osRelease = "arch" ∨ detect_distro osRelease = "debian" ∨
      detect_distro osRelease = "fedora" ∨ detect_distro osRelease = "opensuse" ∨
      detect_distro osRelease = "unknown" := by
  cases osRelease with
  | none => simp [detect_distro]
  | some content => exact detect_distro_lines_mem (splitStr '\n' content)

lemma copy_to_clipboard_contract (p : PlatformInfo) (w : World) (text : String) :
    ((p.copy_to_clipboard w text).2.all fun inv => inv.timeoutSec == 5) = true ∧
      (p.copy_to_clipboard w text).1 =
        (!(p.copy_to_clipboard w text).2.isEmpty &&
          ((p.copy_to_clipboard w text).2.all fun inv => (w inv).isOk)) := by
  unfold PlatformInfo.copy_to_clipboard
  cases hc : p.get_clipboard_tool with
  | none => simp
  | some tool =>
    by_cases h1 : tool = "wl-clipboard"
    · simp [h1]
    · by_cases h2 : tool = "xclip"
      · simp [h1, h2]
      · by_cases h3 : tool = "xsel"
        · simp [h1, h2, h3]
        · simp [h1, h2, h3]

lemma paste_from_clipboard_contract (p : PlatformInfo) (w : World) :
    ((p.paste_from_clipboard w).2.all fun inv => inv.timeoutSec == 5) = true ∧
      (p.paste_from_clipboard w).1.isSome =
        (!(p.paste_from_clipboard w).2.isEmpty &&
          ((p.paste_from_clipboard w).2.all fun inv => (w inv).isOk)) := by
  unfold PlatformInfo.paste_from_clipboard
  cases hc : p.get_clipboard_tool with
  | none => simp
  | some tool =>
    by_cases h1 : tool = "wl-clipboard"
    · cases hw : w { argv := ["wl-paste"], stdinText := none, timeoutSec := 5 } <;>
        simp [h1, hw, ProcResult.isOk]
    · by_cases h2 : tool = "xclip"
      · cases hw : w { argv := ["xclip", "-selection", "clipboard", "-o"], stdinText := none, timeoutSec := 5 } <;>
          simp [h1, h2, hw, ProcResult.isOk]
      · by_cases h3 : tool = "xsel"
        · cases hw : w { argv := ["xsel", "--clipboard", "--output"], stdinText := none, timeoutSec := 5 } <;>
            simp [h1, h2, h3, hw, ProcResult.isOk]
        · simp [h1, h2, h3]

lemma type_text_contract (p : PlatformInfo) (w : World) (text : String) :
    ((p.type_text w text).2.all fun inv => inv.timeoutSec == 10) = true ∧
      (p.type_text w text).1 =
        (!(p.type_text w text).2.isEmpty &&
          ((p.type_text w text).2.all fun inv => (w inv).isOk)) := by
  unfold PlatformInfo.type_text
  cases hc : p.get_keyboard_tool with
  | none => simp
  | some tool =>
    by_cases h1 : tool = "ydotool"
    · simp [h1]
    · by_cases h2 : tool = "kdotool"
      · simp [h1, h2]
      · by_cases h3 : tool = "xdotool"
        · simp [h1, h2, h3]
        · by_cases h4 : tool = "wtype"
          · simp [h1, h2, h3, h4]
          · simp [h1, h2, h3, h4]

lemma simulate_paste_shortcut_contract (p : PlatformInfo) (w : World) (use_shift : Bool) :
    ((p.simulate_paste_shortcut w use_shift).2.all fun inv => inv.timeoutSec == 2) = true ∧
      (p.simulate_paste_shortcut w use_shift).1 =
        (!(p.simulate_paste_shortcut w use_shift).2.isEmpty &&
          ((p.simulate_paste_shortcut w use_shift).2.all fun inv => (w inv).isOk)) := by
  unfold PlatformInfo.simulate_paste_shortcut
  by_cases h : p.get_keyboard_tool = some "ydotool"
  · cases use_shift <;> simp [h]
  · simp [h]

/-- C1 (counterexample): in an X11 session with only the wl-clipboard pair
installed, neither of the claim's first two rules selects a tool and
wl-clipboard is available, yet `get_clipboard_tool` returns nothing while the
claim's selector returns wl-clipboard. -/
theorem clipboard_wl_fallback_counterexample :
    (PlatformInfo.init envX11 hasOnlyWl).get_clipboard_tool = none ∧
      claimed_clipboard_tool (hasOnlyWl "wl-copy" && hasOnlyWl "wl-paste") (hasOnlyWl "xclip")
        (hasOnlyWl "xsel") (PlatformInfo.init envX11 hasOnlyWl).is_wayland
        (PlatformInfo.init envX11 hasOnlyWl).is_x11 = some "wl-clipboard" := by
  decide

/-- C1 (amended): `get_clipboard_tool` selects per the preference order with
the wl-clipboard fallback restricted to non-X11 sessions: Wayland with the
wl-clipboard pair gives wl-clipboard; on X11, xclip is preferred over xsel and
nothing is selected when both are missing (even if wl-clipboard is available);
otherwise wl-clipboard whenever its pair is available; else none. -/
theorem clipboard_tool_selection_amended (env : Env) (has : String → Bool) :
    (PlatformInfo.init env has).get_clipboard_tool =
      spec_clipboard_tool (has "wl-copy" && has "wl-paste") (has "xclip") (has "xsel")
        (PlatformInfo.init env has).is_wayland (PlatformInfo.init env has).is_x11 := by
  simp only [PlatformInfo.get_clipboard_tool, spec_clipboard_tool, init_available_tools,
    clipboard_contains_wl, clipboard_contains_xclip, clipboard_contains_xsel]

/-- C2 (counterexample): with `XDG_SESSION_TYPE=Wayland` (capitalised) and no
other variable set, the code classifies the session as "wayland" while the
claim's literal priority order yields "unknown". -/
theorem display_server_case_sensitivity_counterexample :
    detect_display_server envMixedCase = "wayland" ∧
      claimed_display_server envMixedCase = "unknown" := by
  decide

/-- C2 (amended): display-server classification is a pure function of the
probed variables following the priority order, with `XDG_SESSION_TYPE`
compared after lowercasing and "set" meaning set to a non-empty value; in
particular `XDG_SESSION_TYPE=wayland` always yields "wayland" regardless of
all other variables. -/
theorem display_server_priority_amended (env : Env) :
    detect_display_server env = spec_display_server env ∧
      detect_display_server { env with xdg_session_type := some "wayland" } = "wayland" := by
  constructor
  · simp only [detect_display_server, spec_display_server]
    cases h : env.xdg_session_type with
    | none =>
      rw [Option.getD_none, if_neg (by decide)]
      rfl
    | some s =>
      rw [Option.getD_some]
      dsimp only
      by_cases h1 : toLowerStr s = "wayland"
      · rw [if_pos (Or.inl h1), if_pos h1, h1]
      · by_cases h2 : toLowerStr s = "x11"
        · rw [if_pos (Or.inr h2), if_neg h1, if_pos h2, h2]
        · rw [if_neg (by tauto), if_neg h1, if_neg h2]
          rfl
  · rfl

/-- C3: `simulate_paste_shortcut` returns false and performs no external
invocation whenever the selected keyboard tool is not ydotool (in particular
whenever no tool is selected), regardless of which tools are available. -/
theorem simulate_paste_shortcut_requires_ydotool (p : PlatformInfo) (w : World)
    (use_shift : Bool) (h : p.get_keyboard_tool ≠ some "ydotool") :
    p.simulate_paste_shortcut w use_shift = (false, []) := by
  simp [PlatformInfo.simulate_paste_shortcut, h]

/-- C3 (witness): an X11 snapshot with only xdotool installed selects xdotool,
and the shortcut operation indeed fails without invoking anything. -/
theorem simulate_paste_shortcut_requires_ydotool_witness :
    (PlatformInfo.init envX11 hasOnlyXdotool).get_keyboard_tool = some "xdotool" ∧
      (PlatformInfo.init envX11 hasOnlyXdotool).simulate_paste_shortcut happyWorld false =
        (false, []) :=
  ⟨by decide,
    simulate_paste_shortcut_requires_ydotool (PlatformInfo.init envX11 hasOnlyXdotool)
      happyWorld false (by decide)⟩

/-- C4: when no clipboard tool is selected, `copy_to_clipboard` returns false
and `paste_from_clipboard` returns nothing, and neither performs any external
invocation (the recorded trace is empty). -/
theorem no_clipboard_tool_no_process (p : PlatformInfo) (w : World) (text : String)
    (h : p.get_clipboard_tool = none) :
    p.copy_to_clipboard w text = (false, []) ∧ p.paste_from_clipboard w = (none, []) := by
  constructor
  · simp [PlatformInfo.copy_to_clipboard, h]
  · simp [PlatformInfo.paste_from_clipboard, h]

/-- C4 (witness): the empty-environment, no-tools snapshot selects no clipboard
tool, and both operations fail with an empty invocation trace. -/
theorem no_clipboard_tool_no_process_witness :
    (PlatformInfo.init Env.empty (fun _ => false)).get_clipboard_tool = none ∧
      (PlatformInfo.init Env.empty (fun _ => false)).copy_to_clipboard happyWorld "hello" =
        (false, []) ∧
      (PlatformInfo.init Env.empty (fun _ => false)).paste_from_clipboard happyWorld =
        (none, []) :=
  ⟨by decide,
    (no_clipboard_tool_no_process (PlatformInfo.init Env.empty (fun _ => false)) happyWorld
      "hello" (by decide)).1,
    (no_clipboard_tool_no_process (PlatformInfo.init Env.empty (fun _ => false)) happyWorld
      "hello" (by decide)).2⟩

/-- C5: every operation invokes the selected tool with the documented bounded
timeout (5 seconds for clipboard operations, 10 for typing, 2 for shortcut key
injection), and succeeds exactly when it performed an invocation and the world
reports success — so every caught external-process failure becomes a negative
result (`false` or `none`); the operations are total functions returning a
boolean or optional string, so no exception passes their boundary. -/
theorem operations_bounded_timeout_failure_to_negative (p : PlatformInfo) (w : World)
    (text : String) (use_shift : Bool) :
    (((p.copy_to_clipboard w text).2.all fun inv => inv.timeoutSec == 5) = true ∧
      (p.copy_to_clipboard w text).1 =
        (!(p.copy_to_clipboard w text).2.isEmpty &&
          ((p.copy_to_clipboard w text).2.all fun inv => (w inv).isOk))) ∧
    (((p.paste_from_clipboard w).2.all fun inv => inv.timeoutSec == 5) = true ∧
      (p.paste_from_clipboard w).1.isSome =
        (!(p.paste_from_clipboard w).2.isEmpty &&
          ((p.paste_from_clipboard w).2.all fun inv => (w inv).isOk))) ∧
    (((p.type_text w text).2.all fun inv => inv.timeoutSec == 10) = true ∧
      (p.type_text w text).1 =
        (!(p.type_text w text).2.isEmpty &&
          ((p.type_text w text).2.all fun inv => (w inv).isOk))) ∧
    (((p.simulate_paste_shortcut w use_shift).2.all fun inv => inv.timeoutSec == 2) = true ∧
      (p.simulate_paste_shortcut w use_shift).1 =
        (!(p.simulate_paste_shortcut w use_shift).2.isEmpty &&
          ((p.simulate_paste_shortcut w use_shift).2.all fun inv => (w inv).isOk))) :=
  ⟨copy_to_clipboard_contract p w text, paste_from_clipboard_contract p w,
    type_text_contract p w text, simulate_paste_shortcut_contract p w use_shift⟩

/-- C6: `get_keyboard_tool` selects per the spec's preference order: ydotool
whenever available regardless of session and desktop; else kdotool when KDE is
detected and it is available; else xdotool on X11 when available; else wtype
on Wayland when available; else none. -/
theorem keyboard_tool_selection_follows_spec (env : Env) (has : String → Bool) :
    (PlatformInfo.init env has).get_keyboard_tool =
      spec_keyboard_tool (has "ydotool") (has "kdotool") (has "xdotool") (has "wtype")
        (PlatformInfo.init env has).is_kde (PlatformInfo.init env has).is_x11
        (PlatformInfo.init env has).is_wayland := by
  simp only [PlatformInfo.get_keyboard_tool, spec_keyboard_tool, init_available_tools,
    keyboard_contains_ydotool, keyboard_contains_kdotool, keyboard_contains_xdotool,
    keyboard_contains_wtype]

/-- C7: with no relevant environment variable set and no tool resolving in
PATH, the snapshot classifies the display server and desktop as "unknown",
both selectors return none, and the install instructions list both the
clipboard and the keyboard category with the generic package-manager command
(the unknown-distribution fallback, here with `/etc/os-release` absent). -/
theorem empty_environment_end_to_end :
    (PlatformInfo.init Env.empty (fun _ => false)).display_server = "unknown" ∧
      (PlatformInfo.init Env.empty (fun _ => false)).desktop_env = "unknown" ∧
      (PlatformInfo.init Env.empty (fun _ => false)).get_clipboard_tool = none ∧
      (PlatformInfo.init Env.empty (fun _ => false)).get_keyboard_tool = none ∧
      (PlatformInfo.init Env.empty (fun _ => false)).get_install_instructions none =
        "Install clipboard tool: sudo <package-manager> install xclip\nInstall keyboard automation: sudo <package-manager> install ydotool" := by
  decide

/-- C8: tool selection is deterministic and idempotent: a second method call on
the snapshot returned by the first yields the same result, and the calls leave
the snapshot's fields unchanged (the methods only read `self`, so in
state-passing style they return the snapshot as is). -/
theorem selector_deterministic_idempotent (p : PlatformInfo) :
    (p.get_clipboard_tool_call.2.get_clipboard_tool_call.1 = p.get_clipboard_tool_call.1 ∧
      p.get_clipboard_tool_call.2 = p) ∧
    (p.get_keyboard_tool_call.2.get_keyboard_tool_call.1 = p.get_keyboard_tool_call.1 ∧
      p.get_keyboard_tool_call.2 = p) :=
  ⟨⟨rfl, rfl⟩, ⟨rfl, rfl⟩⟩

/-- C9: the string returned by `get_install_instructions` never contains the
ydotool daemon-enable instruction: the appending branch is guarded by
`keyboard_tool == 'ydotool'` inside a block reachable only when `keyboard_tool`
is none, so it is unreachable. -/
theorem install_instructions_no_daemon_line (p : PlatformInfo) (osRelease : Option String) :
    hasSubstr (p.get_install_instructions osRelease) "Enable ydotool daemon" = false := by
  have hd := detect_distro_mem osRelease
  unfold PlatformInfo.get_install_instructions
  generalize hg : detect_distro osRelease = d at hd
  rcases hd with h | h | h | h | h <;> subst h <;>
    by_cases h1 : p.get_clipboard_tool = none <;>
      by_cases h2 : p.is_wayland = true <;>
        by_cases h3 : p.get_keyboard_tool = none <;>
          simp [h1, h2, h3, Option.isNone_iff_eq_none] <;> decide

/-- C10: every constructed snapshot satisfies the invariant that `is_wayland`
holds exactly when the display server is "wayland" and `is_x11` exactly when
it is "x11"; hence the two flags are never simultaneously true; and the
selector method calls return the snapshot unchanged, preserving the fields. -/
theorem platform_info_invariant (env : Env) (has : String → Bool) :
    (PlatformInfo.init env has).is_wayland =
        ((PlatformInfo.init env has).display_server == "wayland") ∧
      (PlatformInfo.init env has).is_x11 =
        ((PlatformInfo.init env has).display_server == "x11") ∧
      ((PlatformInfo.init env has).is_wayland && (PlatformInfo.init env has).is_x11) = false ∧
      (PlatformInfo.init env has).get_clipboard_tool_call.2 = PlatformInfo.init env has ∧
      (PlatformInfo.init env has).get_keyboard_tool_call.2 = PlatformInfo.init env has := by
  refine ⟨rfl, rfl, ?_, rfl, rfl⟩
  rw [init_is_wayland, init_is_x11]
  by_cases h : detect_display_server env = "wayland"
  · rw [h]
    decide
  · have hb : (detect_display_server env == "wayland") = false := by
      simp [h]
    rw [hb]
    simp
